import Mathlib

/-!
Shallow embedding of `src/ch03-ranges/custom_take_view.h`: the
reimplementation of a take-style range adaptor (`custom_take_view`), its
range-adaptor closure, the arity-dispatching adaptor entry point, and the
pipe composition operator, together with the demand-driven iteration a
consumer such as `std::ranges::copy` performs on the resulting view.

The underlying view `R` is modelled as a `List α`.  Iterators into the view
are integer offsets from `begin`.  Dereferencing an out-of-bounds offset,
or running a loop `it != end` that can never terminate, is undefined
behaviour in the source and is modelled as `none`.
-/

/-- `custom_take_view<R>`: stores the underlying view `base_` and the count
`count_`, of type `std::ranges::range_difference_t<R>`, a signed integer
type (modelled as `Int`). -/
structure custom_take_view (α : Type) where
  base_ : List α
  count_ : Int

/-- The accessor `base()`: returns the underlying range. -/
def custom_take_view.base {α : Type} (v : custom_take_view α) : List α :=
  v.base_

/-- `begin()`: `std::ranges::begin(base_)`, i.e. offset `0` into the
underlying view. -/
def custom_take_view.beginIdx {α : Type} (_v : custom_take_view α) : Int :=
  0

/-- `end()`: `std::ranges::next(std::ranges::begin(base_), count_)`, the
begin iterator advanced by exactly `count_` steps.  The two-argument
`ranges::next` has no bound argument, so nothing clamps the result to the
end of the underlying view. -/
def custom_take_view.endIdx {α : Type} (v : custom_take_view α) : Int :=
  v.beginIdx + v.count_

/-- `n` steps of a consumer loop `for (; it != last; ++it) use(*it);`
starting at offset `i`: every step dereferences the iterator — out of
bounds this is undefined behaviour, modelled as `none` — and then advances
it by one. -/
def copyFrom {α : Type} (base : List α) (i : Nat) : Nat → Option (List α)
  | 0 => some []
  | Nat.succ n =>
    match base[i]? with
    | none => none
    | some x =>
      match copyFrom base (i + 1) n with
      | none => none
      | some rest => some (x :: rest)

/-- The element sequence produced by iterating the view from `begin()` to
`end()`.  When `end()` lies strictly before `begin()` (negative `count_`),
the loop condition `it != end` never becomes false while `it` moves
forward: undefined behaviour, modelled as `none`. -/
def custom_take_view.toList {α : Type} (v : custom_take_view α) :
    Option (List α) :=
  if v.endIdx < v.beginIdx then none
  else copyFrom v.base_ v.beginIdx.toNat (v.endIdx - v.beginIdx).toNat

/-- `details::custom_take_range_adaptor_closure<T>`: the deferred, partially
applied adaptor; it stores only the count. -/
structure custom_take_range_adaptor_closure where
  count : Int

/-- The closure's call operator: given a range it builds
`custom_take_view(range, count)` from the stored count. -/
def custom_take_range_adaptor_closure.app {α : Type}
    (a : custom_take_range_adaptor_closure) (r : List α) :
    custom_take_view α :=
  { base_ := r, count_ := a.count }

/-- `details::custom_take_range_adaptor::operator()` in its one-argument
shape (`sizeof...(args) == 1`): returns the adaptor closure holding the
count, bound to no sequence. -/
def custom_take_range_adaptor.app1 (count : Int) :
    custom_take_range_adaptor_closure :=
  { count := count }

/-- `details::custom_take_range_adaptor::operator()` in its two-argument
shape: returns `custom_take_view(range, count)` directly. -/
def custom_take_range_adaptor.app2 {α : Type} (r : List α) (count : Int) :
    custom_take_view α :=
  { base_ := r, count_ := count }

/-- `details::operator|`, overloaded for the closure type only: composing a
range with an adaptor closure applies the closure to the range. -/
def pipeCompose {α : Type} (r : List α)
    (a : custom_take_range_adaptor_closure) : custom_take_view α :=
  a.app r

/-- The `is_odd` predicate of `custom_take_view_test`: `n % 2 == 1`, with
the C++ truncating remainder (`Int.tmod`). -/
def is_odd (n : Int) : Bool :=
  n.tmod 2 == 1

/-- The input vector `n` of `custom_take_view_test`. -/
def testInput : List Int :=
  [2, 3, 5, 6, 7, 8, 9]

/-! ### General facts about the iteration -/

/-- Unfolding lemma: zero remaining steps of the consumer loop. -/
theorem copyFrom_zero {α : Type} (base : List α) (i : Nat) :
    copyFrom base i 0 = some [] :=
  rfl

/-- Unfolding lemma: one more step of the consumer loop. -/
theorem copyFrom_succ {α : Type} (base : List α) (i n : Nat) :
    copyFrom base i (n + 1) =
      match base[i]? with
      | none => none
      | some x =>
        match copyFrom base (i + 1) n with
        | none => none
        | some rest => some (x :: rest) :=
  rfl

/-- When all `n` dereferences stay in bounds, the consumer loop yields the
`n` elements starting at offset `i`. -/
theorem copyFrom_eq_some {α : Type} (base : List α) :
    ∀ n i, i + n ≤ base.length →
      copyFrom base i n = some ((base.drop i).take n) := by
  intro n
  induction n with
  | zero =>
    intro i _
    rfl
  | succ n ih =>
    intro i h
    have hi : i < base.length := by omega
    have hrec := ih (i + 1) (by omega)
    rw [copyFrom_succ, List.getElem?_eq_getElem hi, hrec,
      List.drop_eq_getElem_cons hi]
    rfl

/-- As soon as the loop would dereference past the end of the underlying
view, the iteration is undefined behaviour. -/
theorem copyFrom_eq_none {α : Type} (base : List α) :
    ∀ n i, 0 < n → base.length < i + n → copyFrom base i n = none := by
  intro n
  induction n with
  | zero =>
    intro i h _
    exact absurd h (by omega)
  | succ n ih =>
    intro i _ h
    by_cases hi : i < base.length
    · have hn : 0 < n := by omega
      simp [copyFrom, List.getElem?_eq_getElem hi, ih (i + 1) hn (by omega)]
    · have : base.length ≤ i := by omega
      simp [copyFrom, List.getElem?_eq_none this]

/-- Normal form of the iteration of a freshly constructed view: `begin()`
is offset `0` and `end()` is offset `N`. -/
theorem toList_mk {α : Type} (S : List α) (N : Int) :
    (custom_take_view.mk S N).toList =
      if N < 0 then none else copyFrom S 0 N.toNat := by
  show (if (0 : Int) + N < 0 then none
      else copyFrom S 0 ((0 + N - 0).toNat)) =
    if N < 0 then none else copyFrom S 0 N.toNat
  rw [zero_add, sub_zero]

/-- Within bounds (`0 ≤ N ≤ length`), iterating the view yields the first
`N` elements of the underlying view. -/
theorem toList_eq_take {α : Type} (S : List α) (N : Int) (h0 : 0 ≤ N)
    (h : N.toNat ≤ S.length) :
    (custom_take_view.mk S N).toList = some (S.take N.toNat) := by
  have hc := copyFrom_eq_some S N.toNat 0 (by omega)
  rw [toList_mk, if_neg (by omega)]
  simpa using hc

/-- A witness instantiating `toList_eq_take` at a concrete input. -/
theorem toList_eq_take_check :
    (custom_take_view.mk ([10, 20, 30] : List Int) 2).toList =
      some [10, 20] :=
  toList_eq_take [10, 20, 30] 2 (by decide) (by decide)

/-- Beyond the length of the underlying view, iterating the view is
undefined behaviour: nothing saturates the end iterator. -/
theorem toList_eq_none_of_long {α : Type} (S : List α) (N : Int)
    (h : (S.length : Int) < N) :
    (custom_take_view.mk S N).toList = none := by
  have hc := copyFrom_eq_none S N.toNat 0 (by omega) (by omega)
  rw [toList_mk, if_neg (by omega)]
  simpa using hc

/-- A witness instantiating `toList_eq_none_of_long` at a concrete input. -/
theorem toList_eq_none_of_long_check :
    (custom_take_view.mk ([10, 20, 30] : List Int) 4).toList = none :=
  toList_eq_none_of_long [10, 20, 30] 4 (by decide)

/-- With a negative count, `end()` lies before `begin()` and the iteration
never terminates: undefined behaviour. -/
theorem toList_eq_none_of_neg {α : Type} (S : List α) (N : Int)
    (h : N < 0) :
    (custom_take_view.mk S N).toList = none := by
  rw [toList_mk, if_pos h]

/-- A witness instantiating `toList_eq_none_of_neg` at a concrete input. -/
theorem toList_eq_none_of_neg_check :
    (custom_take_view.mk ([10, 20, 30] : List Int) (-1)).toList = none :=
  toList_eq_none_of_neg [10, 20, 30] (-1) (by decide)

/-! ### The claims -/

/-- C1: refuted on the code.  The spec's own scenario `boundedView([], 5)`
does not produce `min(5, 0) = 0` elements: `end()` is `begin + 5` with no
clamping, and iterating the view dereferences past the end of the empty
underlying view — undefined behaviour, modelled as `none`, not a sequence
of length `0`. -/
theorem C1_length_fails_on_empty :
    (custom_take_range_adaptor.app2 ([] : List Int) 5).toList = none :=
  rfl

/-- C2: refuted on the code.  `boundedView([1,2,3], 10)` does not saturate
to `[1,2,3]`: `end()` is computed as `ranges::next(begin, 10)` with no
bound, so iteration dereferences offsets `3..9` past the end of the
underlying view — undefined behaviour, modelled as `none`. -/
theorem C2_no_saturation :
    (custom_take_range_adaptor.app2 ([1, 2, 3] : List Int) 10).toList =
      none :=
  rfl

/-- C3: refuted on the code for `N > length(S)`.  At `S = [1,2,3]`,
`N = 4`, the view does not yield the first `min(4, 3) = 3` elements of
`S`: iteration runs past the end of the underlying view (undefined
behaviour, modelled as `none`). -/
theorem C3_prefix_fails_beyond_length :
    (custom_take_range_adaptor.app2 ([1, 2, 3] : List Int) 4).toList ≠
      some (List.take (min 4 3) [1, 2, 3]) :=
  fun h => Option.noConfusion h

/-- C4: composing a sequence with the adaptor closure through the pipe
operator produces exactly the view built by direct construction from the
same sequence and count. -/
theorem C4_pipe_eq_direct {α : Type} (S : List α) (N : Int) :
    pipeCompose S (custom_take_range_adaptor_closure.mk N) =
      custom_take_view.mk S N :=
  rfl

/-- C5: the one-argument call of the adaptor entry point yields the
closure, which holds exactly the count and no sequence, and applying that
closure to a sequence yields the very view the two-argument call builds
from the same pair. -/
theorem C5_arity_dispatch {α : Type} (S : List α) (N : Int) :
    (custom_take_range_adaptor.app1 N).count = N ∧
      (custom_take_range_adaptor.app1 N).app S =
        custom_take_range_adaptor.app2 S N :=
  ⟨rfl, rfl⟩

/-- C6: with count `0`, `end()` equals `begin()` and iterating the view
yields the empty sequence, for every underlying sequence. -/
theorem C6_count_zero_empty {α : Type} (S : List α) :
    (custom_take_range_adaptor.app2 S 0).toList = some [] :=
  rfl

/-- C7: the scenario of `custom_take_view_test`: filtering
`[2,3,5,6,7,8,9]` to its odd elements yields `[3,5,7,9]`, and piping that
through `views::custom_take(2)` yields `[3,5]`. -/
theorem C7_test_scenario :
    testInput.filter is_odd = [3, 5, 7, 9] ∧
      (pipeCompose (testInput.filter is_odd)
          (custom_take_range_adaptor.app1 2)).toList = some [3, 5] :=
  ⟨rfl, rfl⟩

/-- C8: a negative count is never checked: construction of the view, the
one-argument adaptor call, and pipe composition all succeed and store the
negative count verbatim, reporting no error. -/
theorem C8_negative_count_unchecked {α : Type} (S : List α) (N : Int)
    (_h : N < 0) :
    (custom_take_view.mk S N).count_ = N ∧
      (custom_take_view.mk S N).base_ = S ∧
      (custom_take_range_adaptor.app1 N).count = N ∧
      pipeCompose S (custom_take_range_adaptor.app1 N) =
        custom_take_view.mk S N :=
  ⟨rfl, rfl, rfl, rfl⟩

/-- Witness for C8 at the concrete input `S = [1,2,3]`, `N = -3`. -/
theorem C8_negative_count_unchecked_check :
    ((-3 : Int) < 0) ∧
      ((custom_take_view.mk ([1, 2, 3] : List Int) (-3)).count_ = -3 ∧
        (custom_take_view.mk ([1, 2, 3] : List Int) (-3)).base_ =
          [1, 2, 3] ∧
        (custom_take_range_adaptor.app1 (-3)).count = -3 ∧
        pipeCompose ([1, 2, 3] : List Int)
            (custom_take_range_adaptor.app1 (-3)) =
          custom_take_view.mk [1, 2, 3] (-3)) :=
  ⟨by decide, C8_negative_count_unchecked [1, 2, 3] (-3) (by decide)⟩

/-- C9: the stored counts are never mutated: after construction the view
still holds `N`, the closure built from `N` still holds `N`, applying the
closure and pipe composition hand exactly `N` on to the produced view, the
`base()` accessor leaves the view's count untouched, and `end()` is
computed from the stored count `N` relative to `begin()`. -/
theorem C9_count_immutable {α : Type} (S : List α) (N : Int) :
    (custom_take_view.mk S N).count_ = N ∧
      (custom_take_range_adaptor.app1 N).count = N ∧
      ((custom_take_range_adaptor.app1 N).app S).count_ = N ∧
      (pipeCompose S (custom_take_range_adaptor.app1 N)).count_ = N ∧
      ((custom_take_view.mk S N).base = S ∧
        (custom_take_view.mk S N).count_ = N) ∧
      (custom_take_view.mk S N).endIdx =
        (custom_take_view.mk S N).beginIdx + N :=
  ⟨rfl, rfl, rfl, rfl, ⟨rfl, rfl⟩, rfl⟩

/-- C10: the `base()` accessor returns exactly the underlying view supplied
at construction. -/
theorem C10_base_roundtrip {α : Type} (R : List α) (N : Int) :
    (custom_take_view.mk R N).base = R :=
  rfl
